import Mathlib

/-!
# X11DRV desktop window handling: geometry reconciliation

A shallow embedding of `dlls/winex11.drv/desktop.c`.

* The file-scope and function-scope statics (`host_primary_rect`,
  `old_virtual_rect`) and the driver globals the file reads or writes
  (`root_window`, `managed_mode`, `gdi_display`) form the record `Globals`.
* What the collaborators return during one call (`thread_display()`,
  `NtUserGetDesktopWindow()`, `NtUserGetVirtualScreenRect()`,
  `NtUserGetPrimaryMonitorRect()`, `get_host_primary_monitor_rect()`, the
  result of `send_message_timeout`) is the record `Env`.
* Every outbound collaborator call (`XSendEvent`, `NtUserSetWindowPos`,
  `send_message_timeout`) is recorded, in program order, as a `Call`.
* `LONG`, `INT` and `unsigned int` are 32 bits wide.  Values are integers;
  `int32` and `uint32` are the conversions to the signed and unsigned
  32-bit types, and `sub32` is the subtraction of two `LONG`s.
* Constants that come from headers outside this file (`x11drv.h`, Xlib,
  winuser) are the fields of `Headers`; `x11_headers` gives them their
  customary values for evaluation.
* `TRACE` output is not modelled.
-/

namespace X11DRV

/-! ## Machine integers -/

/-- Conversion of an integer value to `unsigned int` (32 bits). -/
def uint32 (x : Int) : Int := x % 2 ^ 32

/-- Conversion of an integer value to a 32-bit signed integer (`LONG`, `INT`),
two's complement. -/
def int32 (x : Int) : Int := (x + 2 ^ 31) % 2 ^ 32 - 2 ^ 31

/-- Subtraction `a - b` of two `LONG` values, result of type `LONG`. -/
def sub32 (a b : Int) : Int := int32 (a - b)

/-- The value `x` is representable as a 32-bit signed integer. -/
def fits32 (x : Int) : Prop := -2 ^ 31 ≤ x ∧ x < 2 ^ 31

instance (x : Int) : Decidable (fits32 x) := by
  unfold fits32; exact inferInstance

/-! ## Data model -/

/-- An X11 window id (`Window`, an XID). -/
abbrev Window := Nat

/-- A user window handle (`HWND`). -/
abbrev HWND := Nat

/-- An X11 atom value (`Atom`). -/
abbrev Atom := Int

/-- Win32 `RECT`: four `LONG` fields. -/
structure RECT where
  left : Int
  top : Int
  right : Int
  bottom : Int
deriving DecidableEq, Repr

/-- An open display connection (`Display *`, non-null).  `default_root` is
what the Xlib accessor `DefaultRootWindow(dpy)` reads from it. -/
structure Display where
  handle : Nat
  default_root : Window
deriving DecidableEq, Repr

/-- `DefaultRootWindow(dpy)`. -/
def DefaultRootWindow (dpy : Display) : Window := dpy.default_root

/-- The atoms this file asks `x11drv_atom` for. -/
inductive AtomName where
  | _NET_WM_STATE
  | _NET_WM_STATE_FULLSCREEN
  | _NET_WM_STATE_MAXIMIZED_VERT
  | _NET_WM_STATE_MAXIMIZED_HORZ
deriving DecidableEq, Repr

/-- Constants and tables declared in headers outside `desktop.c`. -/
structure Headers where
  ClientMessage : Int
  True : Int
  False : Int
  SubstructureRedirectMask : Nat
  SubstructureNotifyMask : Nat
  SWP_NOZORDER : Nat
  SWP_NOACTIVATE : Nat
  SWP_DEFERERASE : Nat
  HWND_BROADCAST : HWND
  WM_X11DRV_DESKTOP_RESIZED : Nat
  SMTO_ABORTIFHUNG : Nat
  FALSE : Int
  x11drv_atom : AtomName → Atom

/-- `#define _NET_WM_STATE_REMOVE 0` -/
def _NET_WM_STATE_REMOVE : Int := 0

/-- `#define _NET_WM_STATE_ADD 1` -/
def _NET_WM_STATE_ADD : Int := 1

/-- The fields of `xev.xclient` that `update_desktop_fullscreen` assigns.
`data.l[4]` is never written by the code and is not part of the record. -/
structure XClientMessageEvent where
  type : Int
  window : Window
  message_type : Atom
  serial : Nat
  display : Display
  send_event : Int
  format : Int
  l0 : Int
  l1 : Int
  l2 : Int
  l3 : Int
deriving DecidableEq, Repr

/-- An outbound collaborator call, with the values of its argument
expressions. -/
inductive Call where
  | XSendEvent (display : Display) (w : Window) (propagate : Int)
      (event_mask : Nat) (event_send : XClientMessageEvent)
  | NtUserSetWindowPos (hwnd : HWND) (after : HWND) (x y cx cy : Int)
      (flags : Nat)
  | send_message_timeout (hwnd : HWND) (msg : Nat) (wparam lparam : Int)
      (flags timeout : Nat) (unicode : Int)
deriving DecidableEq, Repr

/-- Global state read or written by `desktop.c`. -/
structure Globals where
  host_primary_rect : RECT
  old_virtual_rect : RECT
  root_window : Window
  managed_mode : Bool
  gdi_display : Display
deriving DecidableEq, Repr

/-- What the collaborators answer during one call. -/
structure Env where
  thread_display : Option Display
  NtUserGetDesktopWindow : HWND
  NtUserGetVirtualScreenRect : RECT
  NtUserGetPrimaryMonitorRect : RECT
  get_host_primary_monitor_rect : RECT
  send_message_timeout : Int
deriving DecidableEq, Repr

/-- Result of running one function: its return value, the globals
afterwards, and the collaborator calls it made, in order. -/
structure Run (α : Type) where
  ret : α
  globals : Globals
  calls : List Call

/-! ## The functions of `desktop.c` -/

/-- `is_virtual_desktop`: TRUE if Wine is currently in virtual desktop mode. -/
def is_virtual_desktop (g : Globals) : Bool :=
  g.root_window != DefaultRootWindow g.gdi_display

/-- `X11DRV_init_desktop`: setup the desktop when not using the root window. -/
def X11DRV_init_desktop (env : Env) (win : Window) (_width _height : Int)
    (g : Globals) : Run Unit :=
  { ret := ()
    globals := { g with
      host_primary_rect := env.get_host_primary_monitor_rect
      root_window := win
      managed_mode := false }
    calls := [] }

/-- `is_desktop_fullscreen`. -/
def is_desktop_fullscreen (env : Env) (g : Globals) : Run Bool :=
  let primary_rect := env.NtUserGetPrimaryMonitorRect
  { ret :=
      (sub32 primary_rect.right primary_rect.left
          == sub32 g.host_primary_rect.right g.host_primary_rect.left &&
        sub32 primary_rect.bottom primary_rect.top
          == sub32 g.host_primary_rect.bottom g.host_primary_rect.top)
    globals := g
    calls := [] }

/-- The value stored in `xev.xclient.data.l[0]` by
`update_desktop_fullscreen`.  `width` and `height` are `unsigned int`; the
`LONG` differences are converted to `unsigned int` for the comparison. -/
def fullscreen_action (width height : Int) (g : Globals) : Int :=
  if width = uint32 (sub32 g.host_primary_rect.right g.host_primary_rect.left) ∧
      height = uint32 (sub32 g.host_primary_rect.bottom g.host_primary_rect.top)
  then _NET_WM_STATE_ADD
  else _NET_WM_STATE_REMOVE

/-- `update_desktop_fullscreen`.  The parameters are `unsigned int`, so the
arguments are converted on entry. -/
def update_desktop_fullscreen (K : Headers) (env : Env) (width height : Int)
    (g : Globals) : Run Unit :=
  let width := uint32 width
  let height := uint32 height
  match env.thread_display with
  | none => { ret := (), globals := g, calls := [] }
  | some display =>
    if !is_virtual_desktop g then { ret := (), globals := g, calls := [] }
    else
      let xev : XClientMessageEvent :=
        { type := K.ClientMessage
          window := DefaultRootWindow display
          message_type := K.x11drv_atom AtomName._NET_WM_STATE
          serial := 0
          display := display
          send_event := K.True
          format := 32
          l0 := fullscreen_action width height g
          l1 := K.x11drv_atom AtomName._NET_WM_STATE_FULLSCREEN
          l2 := 0
          l3 := 1 }
      let send1 := Call.XSendEvent display (DefaultRootWindow display) K.False
        (K.SubstructureRedirectMask ||| K.SubstructureNotifyMask) xev
      let xev := { xev with
        l1 := K.x11drv_atom AtomName._NET_WM_STATE_MAXIMIZED_VERT
        l2 := K.x11drv_atom AtomName._NET_WM_STATE_MAXIMIZED_HORZ }
      let send2 := Call.XSendEvent display (DefaultRootWindow display) K.False
        (K.SubstructureRedirectMask ||| K.SubstructureNotifyMask) xev
      { ret := (), globals := g, calls := [send1, send2] }

/-- `X11DRV_resize_desktop`.  The value returned by `send_message_timeout`
(`env.send_message_timeout`) is discarded by the code. -/
def X11DRV_resize_desktop (K : Headers) (env : Env) (g : Globals) : Run Unit :=
  let old_virtual_rect := g.old_virtual_rect
  let hwnd := env.NtUserGetDesktopWindow
  let virtual_rect := env.NtUserGetVirtualScreenRect
  let primary_rect := env.NtUserGetPrimaryMonitorRect
  let width := primary_rect.right
  let height := primary_rect.bottom
  let r := update_desktop_fullscreen K env width height g
  let setpos := Call.NtUserSetWindowPos hwnd 0 virtual_rect.left virtual_rect.top
    (sub32 virtual_rect.right virtual_rect.left)
    (sub32 virtual_rect.bottom virtual_rect.top)
    (K.SWP_NOZORDER ||| K.SWP_NOACTIVATE ||| K.SWP_DEFERERASE)
  let broadcast :=
    if old_virtual_rect.left ≠ virtual_rect.left ∨
        old_virtual_rect.top ≠ virtual_rect.top
    then [Call.send_message_timeout K.HWND_BROADCAST K.WM_X11DRV_DESKTOP_RESIZED
            old_virtual_rect.left old_virtual_rect.top K.SMTO_ABORTIFHUNG 2000
            K.FALSE]
    else []
  { ret := ()
    globals := { r.globals with old_virtual_rect := virtual_rect }
    calls := r.calls ++ [setpos] ++ broadcast }

/-! ## Start-up state, observation of the call trace, call sequences -/

/-- The globals at driver start: the two statics of `desktop.c` have static
storage duration and no initialiser, so they start as the zero rectangle;
the other globals are set elsewhere in the driver. -/
def startup (root_window : Window) (managed_mode : Bool) (gdi_display : Display) :
    Globals :=
  { host_primary_rect := ⟨0, 0, 0, 0⟩
    old_virtual_rect := ⟨0, 0, 0, 0⟩
    root_window := root_window
    managed_mode := managed_mode
    gdi_display := gdi_display }

/-- The guard of `update_desktop_fullscreen` passes: `thread_display()` is
not null and `is_virtual_desktop()` is true. -/
def guard_passes (env : Env) (g : Globals) : Bool :=
  env.thread_display.isSome && is_virtual_desktop g

/-- The hint messages (`XSendEvent` calls) of a trace, in order. -/
def hint_messages : List Call → List Call
  | [] => []
  | Call.XSendEvent d w p m e :: cs => Call.XSendEvent d w p m e :: hint_messages cs
  | _ :: cs => hint_messages cs

/-- The move/resize requests (`NtUserSetWindowPos` calls) of a trace. -/
def move_resize_requests : List Call → List Call
  | [] => []
  | Call.NtUserSetWindowPos h a x y cx cy f :: cs =>
      Call.NtUserSetWindowPos h a x y cx cy f :: move_resize_requests cs
  | _ :: cs => move_resize_requests cs

/-- The broadcasts (`send_message_timeout` calls) of a trace. -/
def broadcasts : List Call → List Call
  | [] => []
  | Call.send_message_timeout h m w l f t u :: cs =>
      Call.send_message_timeout h m w l f t u :: broadcasts cs
  | _ :: cs => broadcasts cs

/-- The `xclient.window` field of each hint message of a trace: the window
whose state the message asks the window manager to change. -/
def hint_windows : List Call → List Window
  | [] => []
  | Call.XSendEvent _ _ _ _ e :: cs => e.window :: hint_windows cs
  | _ :: cs => hint_windows cs

/-- The window each hint message of a trace is delivered to (second argument
of `XSendEvent`). -/
def hint_destinations : List Call → List Window
  | [] => []
  | Call.XSendEvent _ w _ _ _ :: cs => w :: hint_destinations cs
  | _ :: cs => hint_destinations cs

/-- The action (`data.l[0]`) of each hint message of a trace. -/
def hint_actions : List Call → List Int
  | [] => []
  | Call.XSendEvent _ _ _ _ e :: cs => e.l0 :: hint_actions cs
  | _ :: cs => hint_actions cs

/-- One entry of a call sequence made after initialisation, with the
collaborator answers seen by that call. -/
inductive Op where
  | resize_desktop (env : Env)
  | desktop_fullscreen (env : Env)

/-- Globals after one entry of a call sequence. -/
def Op.step (K : Headers) : Op → Globals → Globals
  | Op.resize_desktop env, g => (X11DRV_resize_desktop K env g).globals
  | Op.desktop_fullscreen env, g => (is_desktop_fullscreen env g).globals

/-- Globals after a finite call sequence, executed left to right. -/
def run_ops (K : Headers) : List Op → Globals → Globals
  | [], g => g
  | op :: ops, g => run_ops K ops (op.step K g)

/-- The header constants with their customary values (Xlib `X.h`, `winuser.h`),
and sample values for `WM_X11DRV_DESKTOP_RESIZED` and the interned atoms. -/
def x11_headers : Headers :=
  { ClientMessage := 33
    True := 1
    False := 0
    SubstructureRedirectMask := 0x100000
    SubstructureNotifyMask := 0x80000
    SWP_NOZORDER := 0x0004
    SWP_NOACTIVATE := 0x0010
    SWP_DEFERERASE := 0x2000
    HWND_BROADCAST := 0xffff
    WM_X11DRV_DESKTOP_RESIZED := 0x80001002
    SMTO_ABORTIFHUNG := 0x0002
    FALSE := 0
    x11drv_atom := fun a =>
      match a with
      | AtomName._NET_WM_STATE => 300
      | AtomName._NET_WM_STATE_FULLSCREEN => 301
      | AtomName._NET_WM_STATE_MAXIMIZED_VERT => 302
      | AtomName._NET_WM_STATE_MAXIMIZED_HORZ => 303 }

/-- A sample collaborator snapshot: a thread display whose default root
window is 1, desktop window handle 0x10020, and the given rectangles. -/
def sample_env (primary virtual_rect host : RECT) : Env :=
  { thread_display := some ⟨7, 1⟩
    NtUserGetDesktopWindow := 0x10020
    NtUserGetVirtualScreenRect := virtual_rect
    NtUserGetPrimaryMonitorRect := primary
    get_host_primary_monitor_rect := host
    send_message_timeout := 0 }

/-- Sample globals in virtual-desktop mode: the desktop container is window
42, the default root window of `gdi_display` is 1. -/
def sample_globals (host old : RECT) : Globals :=
  { host_primary_rect := host
    old_virtual_rect := old
    root_window := 42
    managed_mode := false
    gdi_display := ⟨3, 1⟩ }

/-! ## Arithmetic of the 32-bit conversions -/

theorem uint32_int32 (x : Int) : uint32 (int32 x) = uint32 x := by
  unfold uint32 int32; omega

theorem int32_eq_iff_uint32_eq (x y : Int) :
    int32 x = int32 y ↔ uint32 x = uint32 y := by
  unfold uint32 int32; omega

theorem int32_of_fits32 {x : Int} (h : fits32 x) : int32 x = x := by
  unfold fits32 at h; unfold int32; omega

theorem fits32_int32 (x : Int) : fits32 (int32 x) := by
  unfold fits32 int32; omega

theorem uint32_eq_iff_of_fits32 {x y : Int} (hx : fits32 x) (hy : fits32 y) :
    uint32 x = uint32 y ↔ x = y := by
  unfold fits32 at hx hy; unfold uint32; omega

theorem fits32_sub32 (a b : Int) : fits32 (sub32 a b) := fits32_int32 (a - b)

theorem sub32_of_fits32 {a b : Int} (h : fits32 (a - b)) : sub32 a b = a - b :=
  int32_of_fits32 h

/-! ## Shape of the call traces -/

theorem update_desktop_fullscreen_globals (K : Headers) (env : Env)
    (width height : Int) (g : Globals) :
    (update_desktop_fullscreen K env width height g).globals = g := by
  unfold update_desktop_fullscreen
  cases env.thread_display <;> simp
  split <;> rfl

theorem update_desktop_fullscreen_calls_of_guard (K : Headers) (env : Env)
    (width height : Int) (g : Globals) (display : Display)
    (hd : env.thread_display = some display) (hv : is_virtual_desktop g = true) :
    (update_desktop_fullscreen K env width height g).calls =
      [Call.XSendEvent display (DefaultRootWindow display) K.False
          (K.SubstructureRedirectMask ||| K.SubstructureNotifyMask)
          { type := K.ClientMessage
            window := DefaultRootWindow display
            message_type := K.x11drv_atom AtomName._NET_WM_STATE
            serial := 0
            display := display
            send_event := K.True
            format := 32
            l0 := fullscreen_action (uint32 width) (uint32 height) g
            l1 := K.x11drv_atom AtomName._NET_WM_STATE_FULLSCREEN
            l2 := 0
            l3 := 1 },
       Call.XSendEvent display (DefaultRootWindow display) K.False
          (K.SubstructureRedirectMask ||| K.SubstructureNotifyMask)
          { type := K.ClientMessage
            window := DefaultRootWindow display
            message_type := K.x11drv_atom AtomName._NET_WM_STATE
            serial := 0
            display := display
            send_event := K.True
            format := 32
            l0 := fullscreen_action (uint32 width) (uint32 height) g
            l1 := K.x11drv_atom AtomName._NET_WM_STATE_MAXIMIZED_VERT
            l2 := K.x11drv_atom AtomName._NET_WM_STATE_MAXIMIZED_HORZ
            l3 := 1 }] := by
  unfold update_desktop_fullscreen
  simp [hd, hv]

theorem update_desktop_fullscreen_calls_of_not_guard (K : Headers) (env : Env)
    (width height : Int) (g : Globals) (h : guard_passes env g = false) :
    (update_desktop_fullscreen K env width height g).calls = [] := by
  unfold update_desktop_fullscreen
  unfold guard_passes at h
  cases hd : env.thread_display with
  | none => rfl
  | some d =>
    simp [hd] at h
    simp [h]

theorem hint_messages_append (xs ys : List Call) :
    hint_messages (xs ++ ys) = hint_messages xs ++ hint_messages ys := by
  induction xs with
  | nil => rfl
  | cons c cs ih => cases c <;> simp [hint_messages, ih]

theorem move_resize_requests_append (xs ys : List Call) :
    move_resize_requests (xs ++ ys) =
      move_resize_requests xs ++ move_resize_requests ys := by
  induction xs with
  | nil => rfl
  | cons c cs ih => cases c <;> simp [move_resize_requests, ih]

theorem broadcasts_append (xs ys : List Call) :
    broadcasts (xs ++ ys) = broadcasts xs ++ broadcasts ys := by
  induction xs with
  | nil => rfl
  | cons c cs ih => cases c <;> simp [broadcasts, ih]

/-- The calls of `update_desktop_fullscreen` are hint messages only. -/
theorem update_desktop_fullscreen_only_hints (K : Headers) (env : Env)
    (width height : Int) (g : Globals) :
    hint_messages (update_desktop_fullscreen K env width height g).calls =
        (update_desktop_fullscreen K env width height g).calls ∧
      move_resize_requests (update_desktop_fullscreen K env width height g).calls = [] ∧
      broadcasts (update_desktop_fullscreen K env width height g).calls = [] := by
  cases hg : guard_passes env g with
  | false =>
    rw [update_desktop_fullscreen_calls_of_not_guard K env width height g hg]
    exact ⟨rfl, rfl, rfl⟩
  | true =>
    unfold guard_passes at hg
    cases hd : env.thread_display with
    | none => simp [hd] at hg
    | some d =>
      simp [hd] at hg
      rw [update_desktop_fullscreen_calls_of_guard K env width height g d hd hg]
      exact ⟨rfl, rfl, rfl⟩

theorem resize_desktop_hint_messages (K : Headers) (env : Env) (g : Globals) :
    hint_messages (X11DRV_resize_desktop K env g).calls =
      (update_desktop_fullscreen K env env.NtUserGetPrimaryMonitorRect.right
        env.NtUserGetPrimaryMonitorRect.bottom g).calls := by
  unfold X11DRV_resize_desktop
  simp only [hint_messages_append]
  rw [(update_desktop_fullscreen_only_hints K env _ _ g).1]
  split <;> simp [hint_messages]

theorem resize_desktop_move_resize_requests (K : Headers) (env : Env) (g : Globals) :
    move_resize_requests (X11DRV_resize_desktop K env g).calls =
      [Call.NtUserSetWindowPos env.NtUserGetDesktopWindow 0
        env.NtUserGetVirtualScreenRect.left env.NtUserGetVirtualScreenRect.top
        (sub32 env.NtUserGetVirtualScreenRect.right env.NtUserGetVirtualScreenRect.left)
        (sub32 env.NtUserGetVirtualScreenRect.bottom env.NtUserGetVirtualScreenRect.top)
        (K.SWP_NOZORDER ||| K.SWP_NOACTIVATE ||| K.SWP_DEFERERASE)] := by
  unfold X11DRV_resize_desktop
  simp only [move_resize_requests_append]
  rw [(update_desktop_fullscreen_only_hints K env _ _ g).2.1]
  split <;> simp [move_resize_requests]

theorem resize_desktop_broadcasts (K : Headers) (env : Env) (g : Globals) :
    broadcasts (X11DRV_resize_desktop K env g).calls =
      if g.old_virtual_rect.left ≠ env.NtUserGetVirtualScreenRect.left ∨
          g.old_virtual_rect.top ≠ env.NtUserGetVirtualScreenRect.top
      then [Call.send_message_timeout K.HWND_BROADCAST K.WM_X11DRV_DESKTOP_RESIZED
              g.old_virtual_rect.left g.old_virtual_rect.top K.SMTO_ABORTIFHUNG 2000
              K.FALSE]
      else [] := by
  unfold X11DRV_resize_desktop
  simp only [broadcasts_append]
  rw [(update_desktop_fullscreen_only_hints K env _ _ g).2.2]
  split <;> simp [broadcasts]

theorem resize_desktop_globals (K : Headers) (env : Env) (g : Globals) :
    (X11DRV_resize_desktop K env g).globals =
      { g with old_virtual_rect := env.NtUserGetVirtualScreenRect } := by
  unfold X11DRV_resize_desktop
  simp only [update_desktop_fullscreen_globals]

theorem fullscreen_action_add_or_remove (width height : Int) (g : Globals) :
    fullscreen_action width height g = _NET_WM_STATE_ADD ∨
      fullscreen_action width height g = _NET_WM_STATE_REMOVE := by
  unfold fullscreen_action
  split
  · exact Or.inl rfl
  · exact Or.inr rfl

theorem fullscreen_action_eq_add_iff (width height : Int) (g : Globals) :
    fullscreen_action width height g = _NET_WM_STATE_ADD ↔
      width = uint32 (sub32 g.host_primary_rect.right g.host_primary_rect.left) ∧
        height = uint32 (sub32 g.host_primary_rect.bottom g.host_primary_rect.top) := by
  unfold fullscreen_action
  split
  · simp [*]
  · simp [*, _NET_WM_STATE_ADD, _NET_WM_STATE_REMOVE]

/-- The action computed from the primary rectangle's `right`/`bottom`,
in terms of the `LONG` values compared. -/
theorem fullscreen_action_primary_iff (p : RECT) (g : Globals)
    (hr : fits32 p.right) (hb : fits32 p.bottom) :
    fullscreen_action (uint32 p.right) (uint32 p.bottom) g = _NET_WM_STATE_ADD ↔
      p.right = sub32 g.host_primary_rect.right g.host_primary_rect.left ∧
        p.bottom = sub32 g.host_primary_rect.bottom g.host_primary_rect.top := by
  rw [fullscreen_action_eq_add_iff,
    uint32_eq_iff_of_fits32 hr (fits32_sub32 _ _),
    uint32_eq_iff_of_fits32 hb (fits32_sub32 _ _)]

theorem hint_actions_hint_messages (cs : List Call) :
    hint_actions (hint_messages cs) = hint_actions cs := by
  induction cs with
  | nil => rfl
  | cons c cs ih => cases c <;> simp [hint_actions, hint_messages, ih]

theorem hint_windows_hint_messages (cs : List Call) :
    hint_windows (hint_messages cs) = hint_windows cs := by
  induction cs with
  | nil => rfl
  | cons c cs ih => cases c <;> simp [hint_windows, hint_messages, ih]

theorem hint_destinations_hint_messages (cs : List Call) :
    hint_destinations (hint_messages cs) = hint_destinations cs := by
  induction cs with
  | nil => rfl
  | cons c cs ih => cases c <;> simp [hint_destinations, hint_messages, ih]

theorem run_ops_host_primary_rect (K : Headers) (ops : List Op) (g : Globals) :
    (run_ops K ops g).host_primary_rect = g.host_primary_rect := by
  induction ops generalizing g with
  | nil => rfl
  | cons op ops ih =>
    rw [run_ops, ih]
    cases op with
    | resize_desktop env => simp only [Op.step, resize_desktop_globals]
    | desktop_fullscreen env => rfl

theorem is_desktop_fullscreen_ret_iff (env : Env) (g : Globals) :
    (is_desktop_fullscreen env g).ret = true ↔
      sub32 env.NtUserGetPrimaryMonitorRect.right env.NtUserGetPrimaryMonitorRect.left
          = sub32 g.host_primary_rect.right g.host_primary_rect.left ∧
        sub32 env.NtUserGetPrimaryMonitorRect.bottom env.NtUserGetPrimaryMonitorRect.top
          = sub32 g.host_primary_rect.bottom g.host_primary_rect.top := by
  simp [is_desktop_fullscreen]

/-- The calls of `update_desktop_fullscreen` do not depend on
`old_virtual_rect`. -/
theorem update_desktop_fullscreen_calls_old_virtual_rect (K : Headers) (env : Env)
    (width height : Int) (g : Globals) (v : RECT) :
    (update_desktop_fullscreen K env width height { g with old_virtual_rect := v }).calls =
      (update_desktop_fullscreen K env width height g).calls := by
  unfold update_desktop_fullscreen
  cases env.thread_display with
  | none => rfl
  | some d =>
    cases hv : is_virtual_desktop g with
    | false =>
      have hv2 : is_virtual_desktop { g with old_virtual_rect := v } = false := hv
      simp [hv, hv2]
    | true =>
      have hv2 : is_virtual_desktop { g with old_virtual_rect := v } = true := hv
      simp [hv, hv2, fullscreen_action]

theorem guard_passes_eq_false_iff (env : Env) (g : Globals) :
    guard_passes env g = false ↔
      env.thread_display = none ∨ g.root_window = DefaultRootWindow g.gdi_display := by
  unfold guard_passes is_virtual_desktop
  cases env.thread_display <;> simp

theorem resize_desktop_hint_actions_of_guard (K : Headers) (env : Env) (g : Globals)
    (display : Display) (hd : env.thread_display = some display)
    (hv : is_virtual_desktop g = true) :
    hint_actions (X11DRV_resize_desktop K env g).calls =
      [fullscreen_action (uint32 env.NtUserGetPrimaryMonitorRect.right)
          (uint32 env.NtUserGetPrimaryMonitorRect.bottom) g,
       fullscreen_action (uint32 env.NtUserGetPrimaryMonitorRect.right)
          (uint32 env.NtUserGetPrimaryMonitorRect.bottom) g] := by
  rw [← hint_actions_hint_messages, resize_desktop_hint_messages,
    update_desktop_fullscreen_calls_of_guard K env _ _ g display hd hv]
  rfl

/-- With a primary rectangle whose origin is zero, the test of
`update_desktop_fullscreen` and the test of `is_desktop_fullscreen` agree. -/
theorem fullscreen_action_iff_is_desktop_fullscreen (env : Env) (g : Globals)
    (hl : env.NtUserGetPrimaryMonitorRect.left = 0)
    (ht : env.NtUserGetPrimaryMonitorRect.top = 0) :
    fullscreen_action (uint32 env.NtUserGetPrimaryMonitorRect.right)
        (uint32 env.NtUserGetPrimaryMonitorRect.bottom) g = _NET_WM_STATE_ADD ↔
      (is_desktop_fullscreen env g).ret = true := by
  rw [fullscreen_action_eq_add_iff, is_desktop_fullscreen_ret_iff, hl, ht]
  unfold sub32
  rw [uint32_int32, uint32_int32, int32_eq_iff_uint32_eq, int32_eq_iff_uint32_eq]
  simp

/-! ## The claims -/

/-- C1: when the guard passes (a display connection exists and
virtual-desktop mode is active), `X11DRV_resize_desktop` sends exactly two
hint messages to the default root window, both carrying the same action,
which is ADD or REMOVE; the action is ADD exactly when
`(PrimaryRect.right, PrimaryRect.bottom)` equals
`(HostRect.right - HostRect.left, HostRect.bottom - HostRect.top)` (as `LONG`
differences, and as plain integers whenever those differences are
representable) and REMOVE otherwise; the first message names the fullscreen
hint, the second the maximized-vertical and maximized-horizontal hints. -/
theorem resize_desktop_sends_hint_pair (K : Headers) (env : Env) (g : Globals)
    (display : Display)
    (hd : env.thread_display = some display)
    (hv : is_virtual_desktop g = true)
    (hr : fits32 env.NtUserGetPrimaryMonitorRect.right)
    (hb : fits32 env.NtUserGetPrimaryMonitorRect.bottom) :
    ∃ m1 m2 : XClientMessageEvent,
      hint_messages (X11DRV_resize_desktop K env g).calls =
        [Call.XSendEvent display (DefaultRootWindow display) K.False
            (K.SubstructureRedirectMask ||| K.SubstructureNotifyMask) m1,
         Call.XSendEvent display (DefaultRootWindow display) K.False
            (K.SubstructureRedirectMask ||| K.SubstructureNotifyMask) m2] ∧
      m1.message_type = K.x11drv_atom AtomName._NET_WM_STATE ∧
      m2.message_type = K.x11drv_atom AtomName._NET_WM_STATE ∧
      m2.l0 = m1.l0 ∧
      (m1.l0 = _NET_WM_STATE_ADD ∨ m1.l0 = _NET_WM_STATE_REMOVE) ∧
      (m1.l0 = _NET_WM_STATE_ADD ↔
        env.NtUserGetPrimaryMonitorRect.right =
            sub32 g.host_primary_rect.right g.host_primary_rect.left ∧
          env.NtUserGetPrimaryMonitorRect.bottom =
            sub32 g.host_primary_rect.bottom g.host_primary_rect.top) ∧
      (fits32 (g.host_primary_rect.right - g.host_primary_rect.left) →
        fits32 (g.host_primary_rect.bottom - g.host_primary_rect.top) →
        ((m1.l0 = _NET_WM_STATE_ADD ↔
            env.NtUserGetPrimaryMonitorRect.right =
                g.host_primary_rect.right - g.host_primary_rect.left ∧
              env.NtUserGetPrimaryMonitorRect.bottom =
                g.host_primary_rect.bottom - g.host_primary_rect.top) ∧
          (m1.l0 = _NET_WM_STATE_REMOVE ↔
            ¬ (env.NtUserGetPrimaryMonitorRect.right =
                  g.host_primary_rect.right - g.host_primary_rect.left ∧
                env.NtUserGetPrimaryMonitorRect.bottom =
                  g.host_primary_rect.bottom - g.host_primary_rect.top)))) ∧
      m1.l1 = K.x11drv_atom AtomName._NET_WM_STATE_FULLSCREEN ∧
      m1.l2 = 0 ∧
      m2.l1 = K.x11drv_atom AtomName._NET_WM_STATE_MAXIMIZED_VERT ∧
      m2.l2 = K.x11drv_atom AtomName._NET_WM_STATE_MAXIMIZED_HORZ := by
  rw [resize_desktop_hint_messages,
    update_desktop_fullscreen_calls_of_guard K env _ _ g display hd hv]
  refine ⟨_, _, rfl, rfl, rfl, rfl, ?_, ?_, ?_, rfl, rfl, rfl, rfl⟩
  · exact fullscreen_action_add_or_remove _ _ g
  · exact fullscreen_action_primary_iff _ g hr hb
  · intro hw hh
    have hiff := fullscreen_action_primary_iff env.NtUserGetPrimaryMonitorRect g hr hb
    rw [sub32_of_fits32 hw, sub32_of_fits32 hh] at hiff
    refine ⟨hiff, ?_⟩
    rw [← hiff]
    rcases fullscreen_action_add_or_remove
        (uint32 env.NtUserGetPrimaryMonitorRect.right)
        (uint32 env.NtUserGetPrimaryMonitorRect.bottom) g with h | h
    · simp [h, _NET_WM_STATE_ADD, _NET_WM_STATE_REMOVE]
    · simp [h, _NET_WM_STATE_ADD, _NET_WM_STATE_REMOVE]

/-- Witness for C1 at the two configurations of the specification:
`HostRect = (0,0,1920,1080)` with `PrimaryRect = (0,0,1920,1080)` gives
ADD/ADD, and with `PrimaryRect = (0,0,1280,720)` gives REMOVE/REMOVE. -/
theorem resize_desktop_sends_hint_pair_witness :
    ((sample_env ⟨0, 0, 1920, 1080⟩ ⟨0, 0, 1920, 1080⟩ ⟨0, 0, 1920, 1080⟩).thread_display
        = some ⟨7, 1⟩ ∧
      is_virtual_desktop (sample_globals ⟨0, 0, 1920, 1080⟩ ⟨0, 0, 0, 0⟩) = true ∧
      fits32 1920 ∧ fits32 1080 ∧ fits32 1280 ∧ fits32 720) ∧
    hint_actions (X11DRV_resize_desktop x11_headers
        (sample_env ⟨0, 0, 1920, 1080⟩ ⟨0, 0, 1920, 1080⟩ ⟨0, 0, 1920, 1080⟩)
        (sample_globals ⟨0, 0, 1920, 1080⟩ ⟨0, 0, 0, 0⟩)).calls
      = [_NET_WM_STATE_ADD, _NET_WM_STATE_ADD] ∧
    hint_actions (X11DRV_resize_desktop x11_headers
        (sample_env ⟨0, 0, 1280, 720⟩ ⟨0, 0, 1280, 720⟩ ⟨0, 0, 1920, 1080⟩)
        (sample_globals ⟨0, 0, 1920, 1080⟩ ⟨0, 0, 0, 0⟩)).calls
      = [_NET_WM_STATE_REMOVE, _NET_WM_STATE_REMOVE] := by
  refine ⟨⟨rfl, by decide, by decide, by decide, by decide, by decide⟩, ?_, ?_⟩
  · obtain ⟨m1, m2, hcalls, -, -, h21, -, -, hmath, -⟩ :=
      resize_desktop_sends_hint_pair x11_headers
        (sample_env ⟨0, 0, 1920, 1080⟩ ⟨0, 0, 1920, 1080⟩ ⟨0, 0, 1920, 1080⟩)
        (sample_globals ⟨0, 0, 1920, 1080⟩ ⟨0, 0, 0, 0⟩) ⟨7, 1⟩ rfl (by decide)
        (by decide) (by decide)
    have hadd : m1.l0 = _NET_WM_STATE_ADD :=
      ((hmath (by decide) (by decide)).1).2 ⟨by decide, by decide⟩
    have key : hint_actions (hint_messages (X11DRV_resize_desktop x11_headers
        (sample_env ⟨0, 0, 1920, 1080⟩ ⟨0, 0, 1920, 1080⟩ ⟨0, 0, 1920, 1080⟩)
        (sample_globals ⟨0, 0, 1920, 1080⟩ ⟨0, 0, 0, 0⟩)).calls) = [m1.l0, m2.l0] := by
      rw [hcalls]; rfl
    rw [hint_actions_hint_messages] at key
    rw [key, h21, hadd]
  · obtain ⟨m1, m2, hcalls, -, -, h21, -, -, hmath, -⟩ :=
      resize_desktop_sends_hint_pair x11_headers
        (sample_env ⟨0, 0, 1280, 720⟩ ⟨0, 0, 1280, 720⟩ ⟨0, 0, 1920, 1080⟩)
        (sample_globals ⟨0, 0, 1920, 1080⟩ ⟨0, 0, 0, 0⟩) ⟨7, 1⟩ rfl (by decide)
        (by decide) (by decide)
    have hrem : m1.l0 = _NET_WM_STATE_REMOVE :=
      ((hmath (by decide) (by decide)).2).2 (by decide)
    have key : hint_actions (hint_messages (X11DRV_resize_desktop x11_headers
        (sample_env ⟨0, 0, 1280, 720⟩ ⟨0, 0, 1280, 720⟩ ⟨0, 0, 1920, 1080⟩)
        (sample_globals ⟨0, 0, 1920, 1080⟩ ⟨0, 0, 0, 0⟩)).calls) = [m1.l0, m2.l0] := by
      rw [hcalls]; rfl
    rw [hint_actions_hint_messages] at key
    rw [key, h21, hrem]

/-- In every state reached by `X11DRV_init_desktop` in which the guard
passes, each hint message of `X11DRV_resize_desktop` is delivered to the
default root window of the thread display and carries that same default root
window in its `window` field; when the thread display and `gdi_display` have
the same default root window, that field differs from the desktop container
`win`. -/
theorem init_desktop_resize_hint_windows (K : Headers) (env0 env : Env)
    (win : Window) (width height : Int) (g0 : Globals) (display : Display)
    (hd : env.thread_display = some display)
    (hv : is_virtual_desktop (X11DRV_init_desktop env0 win width height g0).globals = true) :
    (X11DRV_init_desktop env0 win width height g0).globals.root_window = win ∧
    hint_destinations (X11DRV_resize_desktop K env
        (X11DRV_init_desktop env0 win width height g0).globals).calls
      = [DefaultRootWindow display, DefaultRootWindow display] ∧
    hint_windows (X11DRV_resize_desktop K env
        (X11DRV_init_desktop env0 win width height g0).globals).calls
      = [DefaultRootWindow display, DefaultRootWindow display] ∧
    (DefaultRootWindow display = DefaultRootWindow g0.gdi_display →
      DefaultRootWindow display ≠ win) := by
  refine ⟨rfl, ?_, ?_, ?_⟩
  · rw [← hint_destinations_hint_messages, resize_desktop_hint_messages,
      update_desktop_fullscreen_calls_of_guard K env _ _ _ display hd hv]
    rfl
  · rw [← hint_windows_hint_messages, resize_desktop_hint_messages,
      update_desktop_fullscreen_calls_of_guard K env _ _ _ display hd hv]
    rfl
  · intro hsame heq
    have hne : win ≠ DefaultRootWindow g0.gdi_display := by
      simpa [is_virtual_desktop, X11DRV_init_desktop] using hv
    exact hne (by rw [← heq, hsame])

/-- C2 (evaluation of the code): after `X11DRV_init_desktop` records the
desktop container `win = 42` as `root_window`, with default root window 1 and
the guard passing, both hint messages of `X11DRV_resize_desktop` are delivered
to the default root window 1 and carry window 1, not the desktop container 42,
in their `window` field. -/
theorem init_desktop_resize_hint_window_is_default_root :
    (X11DRV_init_desktop (sample_env ⟨0, 0, 1920, 1080⟩ ⟨0, 0, 1920, 1080⟩ ⟨0, 0, 1920, 1080⟩)
        42 1920 1080 (startup 1 true ⟨3, 1⟩)).globals.root_window = 42 ∧
    guard_passes (sample_env ⟨0, 0, 1920, 1080⟩ ⟨0, 0, 1920, 1080⟩ ⟨0, 0, 1920, 1080⟩)
      (X11DRV_init_desktop (sample_env ⟨0, 0, 1920, 1080⟩ ⟨0, 0, 1920, 1080⟩ ⟨0, 0, 1920, 1080⟩)
        42 1920 1080 (startup 1 true ⟨3, 1⟩)).globals = true ∧
    hint_destinations (X11DRV_resize_desktop x11_headers
      (sample_env ⟨0, 0, 1920, 1080⟩ ⟨0, 0, 1920, 1080⟩ ⟨0, 0, 1920, 1080⟩)
      (X11DRV_init_desktop (sample_env ⟨0, 0, 1920, 1080⟩ ⟨0, 0, 1920, 1080⟩ ⟨0, 0, 1920, 1080⟩)
        42 1920 1080 (startup 1 true ⟨3, 1⟩)).globals).calls = [1, 1] ∧
    hint_windows (X11DRV_resize_desktop x11_headers
      (sample_env ⟨0, 0, 1920, 1080⟩ ⟨0, 0, 1920, 1080⟩ ⟨0, 0, 1920, 1080⟩)
      (X11DRV_init_desktop (sample_env ⟨0, 0, 1920, 1080⟩ ⟨0, 0, 1920, 1080⟩ ⟨0, 0, 1920, 1080⟩)
        42 1920 1080 (startup 1 true ⟨3, 1⟩)).globals).calls = [1, 1] := by
  decide

/-- C3: `X11DRV_resize_desktop` broadcasts exactly one
`WM_X11DRV_DESKTOP_RESIZED` to `HWND_BROADCAST` when the left or the top of the
freshly read virtual rectangle differs from that of the previous one, with the
old origin as payload, and broadcasts nothing when left and top are both
unchanged, whatever the right and bottom fields are. -/
theorem resize_desktop_broadcast_on_origin_change (K : Headers) (env : Env)
    (g : Globals) :
    ((g.old_virtual_rect.left ≠ env.NtUserGetVirtualScreenRect.left ∨
        g.old_virtual_rect.top ≠ env.NtUserGetVirtualScreenRect.top) →
      broadcasts (X11DRV_resize_desktop K env g).calls =
        [Call.send_message_timeout K.HWND_BROADCAST K.WM_X11DRV_DESKTOP_RESIZED
          g.old_virtual_rect.left g.old_virtual_rect.top K.SMTO_ABORTIFHUNG 2000
          K.FALSE]) ∧
    ((g.old_virtual_rect.left = env.NtUserGetVirtualScreenRect.left ∧
        g.old_virtual_rect.top = env.NtUserGetVirtualScreenRect.top) →
      broadcasts (X11DRV_resize_desktop K env g).calls = []) := by
  rw [resize_desktop_broadcasts]
  constructor
  · intro h
    rw [if_pos h]
  · intro h
    rw [if_neg (by rw [h.1, h.2]; simp)]

/-- Witness for C3: previous origin `(0,0)` and new origin `(-1920,0)` yield
one broadcast with payload `(0,0)`; a change of size only, with the origin
staying `(0,0)`, yields none. -/
theorem resize_desktop_broadcast_on_origin_change_witness :
    ((0 : Int) ≠ -1920 ∨ (0 : Int) ≠ 0) ∧
    broadcasts (X11DRV_resize_desktop x11_headers
        (sample_env ⟨0, 0, 1920, 1080⟩ ⟨-1920, 0, 1920, 1080⟩ ⟨0, 0, 1920, 1080⟩)
        (sample_globals ⟨0, 0, 1920, 1080⟩ ⟨0, 0, 1920, 1080⟩)).calls =
      [Call.send_message_timeout x11_headers.HWND_BROADCAST
        x11_headers.WM_X11DRV_DESKTOP_RESIZED 0 0 x11_headers.SMTO_ABORTIFHUNG 2000
        x11_headers.FALSE] ∧
    broadcasts (X11DRV_resize_desktop x11_headers
        (sample_env ⟨0, 0, 1920, 1080⟩ ⟨0, 0, 3840, 2160⟩ ⟨0, 0, 1920, 1080⟩)
        (sample_globals ⟨0, 0, 1920, 1080⟩ ⟨0, 0, 1920, 1080⟩)).calls = [] :=
  ⟨by decide,
   (resize_desktop_broadcast_on_origin_change x11_headers
      (sample_env ⟨0, 0, 1920, 1080⟩ ⟨-1920, 0, 1920, 1080⟩ ⟨0, 0, 1920, 1080⟩)
      (sample_globals ⟨0, 0, 1920, 1080⟩ ⟨0, 0, 1920, 1080⟩)).1 (by decide),
   (resize_desktop_broadcast_on_origin_change x11_headers
      (sample_env ⟨0, 0, 1920, 1080⟩ ⟨0, 0, 3840, 2160⟩ ⟨0, 0, 1920, 1080⟩)
      (sample_globals ⟨0, 0, 1920, 1080⟩ ⟨0, 0, 1920, 1080⟩)).2 ⟨rfl, rfl⟩⟩

/-- C4: `X11DRV_resize_desktop` issues exactly one move/resize request, on
the desktop window, with position `(VirtualRect.left, VirtualRect.top)`, size
`(VirtualRect.right - VirtualRect.left, VirtualRect.bottom - VirtualRect.top)`
(the `LONG` differences, which are the plain integer differences whenever
these are representable) and exactly the flags
`SWP_NOZORDER | SWP_NOACTIVATE | SWP_DEFERERASE`; any other call that reads
the same virtual rectangle and desktop window issues the same request,
whatever its primary rectangle, host rectangle, previous virtual rectangle or
display. -/
theorem resize_desktop_issues_one_move_resize (K : Headers) (env : Env) (g : Globals) :
    move_resize_requests (X11DRV_resize_desktop K env g).calls =
      [Call.NtUserSetWindowPos env.NtUserGetDesktopWindow 0
        env.NtUserGetVirtualScreenRect.left env.NtUserGetVirtualScreenRect.top
        (sub32 env.NtUserGetVirtualScreenRect.right env.NtUserGetVirtualScreenRect.left)
        (sub32 env.NtUserGetVirtualScreenRect.bottom env.NtUserGetVirtualScreenRect.top)
        (K.SWP_NOZORDER ||| K.SWP_NOACTIVATE ||| K.SWP_DEFERERASE)] ∧
    (fits32 (env.NtUserGetVirtualScreenRect.right - env.NtUserGetVirtualScreenRect.left) →
      fits32 (env.NtUserGetVirtualScreenRect.bottom - env.NtUserGetVirtualScreenRect.top) →
      move_resize_requests (X11DRV_resize_desktop K env g).calls =
        [Call.NtUserSetWindowPos env.NtUserGetDesktopWindow 0
          env.NtUserGetVirtualScreenRect.left env.NtUserGetVirtualScreenRect.top
          (env.NtUserGetVirtualScreenRect.right - env.NtUserGetVirtualScreenRect.left)
          (env.NtUserGetVirtualScreenRect.bottom - env.NtUserGetVirtualScreenRect.top)
          (K.SWP_NOZORDER ||| K.SWP_NOACTIVATE ||| K.SWP_DEFERERASE)]) ∧
    (∀ (env2 : Env) (g2 : Globals),
      env2.NtUserGetVirtualScreenRect = env.NtUserGetVirtualScreenRect →
      env2.NtUserGetDesktopWindow = env.NtUserGetDesktopWindow →
      move_resize_requests (X11DRV_resize_desktop K env2 g2).calls =
        move_resize_requests (X11DRV_resize_desktop K env g).calls) := by
  refine ⟨resize_desktop_move_resize_requests K env g, ?_, ?_⟩
  · intro hw hh
    rw [resize_desktop_move_resize_requests, sub32_of_fits32 hw, sub32_of_fits32 hh]
  · intro env2 g2 hv hd
    rw [resize_desktop_move_resize_requests, resize_desktop_move_resize_requests, hv, hd]

/-- Witness for C4: a virtual rectangle `(0,0,3840,1080)` gives one request
at `(0,0)` of size `(3840,1080)`, and a call with a different primary
rectangle, host rectangle, previous virtual rectangle and no display issues
the same request. -/
theorem resize_desktop_issues_one_move_resize_witness :
    (fits32 (3840 - 0) ∧ fits32 (1080 - 0)) ∧
    move_resize_requests (X11DRV_resize_desktop x11_headers
        (sample_env ⟨0, 0, 1920, 1080⟩ ⟨0, 0, 3840, 1080⟩ ⟨0, 0, 1920, 1080⟩)
        (sample_globals ⟨0, 0, 1920, 1080⟩ ⟨0, 0, 0, 0⟩)).calls =
      [Call.NtUserSetWindowPos 0x10020 0 0 0 (3840 - 0) (1080 - 0)
        (x11_headers.SWP_NOZORDER ||| x11_headers.SWP_NOACTIVATE |||
          x11_headers.SWP_DEFERERASE)] ∧
    move_resize_requests (X11DRV_resize_desktop x11_headers
        { sample_env ⟨0, 0, 800, 600⟩ ⟨0, 0, 3840, 1080⟩ ⟨0, 0, 1920, 1080⟩ with
          thread_display := none }
        (sample_globals ⟨0, 0, 1024, 768⟩ ⟨5, 5, 10, 10⟩)).calls =
      move_resize_requests (X11DRV_resize_desktop x11_headers
        (sample_env ⟨0, 0, 1920, 1080⟩ ⟨0, 0, 3840, 1080⟩ ⟨0, 0, 1920, 1080⟩)
        (sample_globals ⟨0, 0, 1920, 1080⟩ ⟨0, 0, 0, 0⟩)).calls :=
  ⟨⟨by decide, by decide⟩,
   (resize_desktop_issues_one_move_resize x11_headers
      (sample_env ⟨0, 0, 1920, 1080⟩ ⟨0, 0, 3840, 1080⟩ ⟨0, 0, 1920, 1080⟩)
      (sample_globals ⟨0, 0, 1920, 1080⟩ ⟨0, 0, 0, 0⟩)).2.1 (by decide) (by decide),
   (resize_desktop_issues_one_move_resize x11_headers
      (sample_env ⟨0, 0, 1920, 1080⟩ ⟨0, 0, 3840, 1080⟩ ⟨0, 0, 1920, 1080⟩)
      (sample_globals ⟨0, 0, 1920, 1080⟩ ⟨0, 0, 0, 0⟩)).2.2 _ _ rfl rfl⟩

/-- C5 fails as stated: with `VirtualRect = (-1920,0,3840,1080)` as
`(left, top, right, bottom)`, `X11DRV_resize_desktop` issues no move/resize
request at position `(-1920,0)` with size `(3840,1080)`; the only request it
issues has size `(5760,1080)`. -/
theorem resize_desktop_two_monitor_size_is_not_3840 :
    (¬ ∃ hwnd after flags,
      Call.NtUserSetWindowPos hwnd after (-1920) 0 3840 1080 flags ∈
        (X11DRV_resize_desktop x11_headers
          (sample_env ⟨0, 0, 1920, 1080⟩ ⟨-1920, 0, 3840, 1080⟩ ⟨0, 0, 1920, 1080⟩)
          (sample_globals ⟨0, 0, 1920, 1080⟩ ⟨0, 0, 0, 0⟩)).calls) ∧
    move_resize_requests (X11DRV_resize_desktop x11_headers
        (sample_env ⟨0, 0, 1920, 1080⟩ ⟨-1920, 0, 3840, 1080⟩ ⟨0, 0, 1920, 1080⟩)
        (sample_globals ⟨0, 0, 1920, 1080⟩ ⟨0, 0, 0, 0⟩)).calls =
      [Call.NtUserSetWindowPos 0x10020 0 (-1920) 0 5760 1080 0x2014] := by
  constructor
  · rintro ⟨hwnd, after, flags, hmem⟩
    have hcalls : (X11DRV_resize_desktop x11_headers
        (sample_env ⟨0, 0, 1920, 1080⟩ ⟨-1920, 0, 3840, 1080⟩ ⟨0, 0, 1920, 1080⟩)
        (sample_globals ⟨0, 0, 1920, 1080⟩ ⟨0, 0, 0, 0⟩)).calls =
        [Call.XSendEvent ⟨7, 1⟩ 1 0 0x180000
            ⟨33, 1, 300, 0, ⟨7, 1⟩, 1, 32, 1, 301, 0, 1⟩,
         Call.XSendEvent ⟨7, 1⟩ 1 0 0x180000
            ⟨33, 1, 300, 0, ⟨7, 1⟩, 1, 32, 1, 302, 303, 1⟩,
         Call.NtUserSetWindowPos 0x10020 0 (-1920) 0 5760 1080 0x2014,
         Call.send_message_timeout 0xffff 0x80001002 0 0 2 2000 0] := by
      decide
    rw [hcalls] at hmem
    simp at hmem
  · decide

/-- C5 as amended: with `VirtualRect = (-1920,0,3840,1080)` as
`(left, top, right, bottom)`, `X11DRV_resize_desktop` issues exactly one
move/resize request, to position `(-1920,0)` with size `(5760,1080)`. -/
theorem resize_desktop_two_monitor_request (K : Headers) (env : Env) (g : Globals)
    (hv : env.NtUserGetVirtualScreenRect = ⟨-1920, 0, 3840, 1080⟩) :
    move_resize_requests (X11DRV_resize_desktop K env g).calls =
      [Call.NtUserSetWindowPos env.NtUserGetDesktopWindow 0 (-1920) 0 5760 1080
        (K.SWP_NOZORDER ||| K.SWP_NOACTIVATE ||| K.SWP_DEFERERASE)] := by
  rw [resize_desktop_move_resize_requests, hv]
  have h1 : sub32 3840 (-1920) = 5760 := by decide
  have h2 : sub32 1080 0 = 1080 := by decide
  simp only [h1, h2]

/-- Witness for the amended C5. -/
theorem resize_desktop_two_monitor_request_witness :
    (sample_env ⟨0, 0, 1920, 1080⟩ ⟨-1920, 0, 3840, 1080⟩
        ⟨0, 0, 1920, 1080⟩).NtUserGetVirtualScreenRect = ⟨-1920, 0, 3840, 1080⟩ ∧
    move_resize_requests (X11DRV_resize_desktop x11_headers
        (sample_env ⟨0, 0, 1920, 1080⟩ ⟨-1920, 0, 3840, 1080⟩ ⟨0, 0, 1920, 1080⟩)
        (sample_globals ⟨0, 0, 1920, 1080⟩ ⟨0, 0, 0, 0⟩)).calls =
      [Call.NtUserSetWindowPos
        (sample_env ⟨0, 0, 1920, 1080⟩ ⟨-1920, 0, 3840, 1080⟩
          ⟨0, 0, 1920, 1080⟩).NtUserGetDesktopWindow 0 (-1920) 0 5760 1080
        (x11_headers.SWP_NOZORDER ||| x11_headers.SWP_NOACTIVATE |||
          x11_headers.SWP_DEFERERASE)] :=
  ⟨rfl, resize_desktop_two_monitor_request x11_headers
    (sample_env ⟨0, 0, 1920, 1080⟩ ⟨-1920, 0, 3840, 1080⟩ ⟨0, 0, 1920, 1080⟩)
    (sample_globals ⟨0, 0, 1920, 1080⟩ ⟨0, 0, 0, 0⟩) rfl⟩

/-- C6: after `X11DRV_init_desktop` captures the host primary-monitor
rectangle `H`, and after any finite sequence of `X11DRV_resize_desktop` and
`is_desktop_fullscreen` calls with arbitrary collaborator snapshots,
`host_primary_rect` still equals `H`; `is_desktop_fullscreen` returns true iff
the current primary rectangle's width and height equal those of `H` (as `LONG`
differences, and as plain integers whenever the four differences are
representable); and `is_desktop_fullscreen` changes no global and makes no
collaborator call. -/
theorem init_desktop_host_rect_snapshot (K : Headers) (env0 : Env) (win : Window)
    (width height : Int) (g0 : Globals) (ops : List Op) (env : Env) :
    (run_ops K ops (X11DRV_init_desktop env0 win width height g0).globals).host_primary_rect
        = env0.get_host_primary_monitor_rect ∧
    ((is_desktop_fullscreen env
          (run_ops K ops (X11DRV_init_desktop env0 win width height g0).globals)).ret = true ↔
      sub32 env.NtUserGetPrimaryMonitorRect.right env.NtUserGetPrimaryMonitorRect.left
          = sub32 env0.get_host_primary_monitor_rect.right
              env0.get_host_primary_monitor_rect.left ∧
        sub32 env.NtUserGetPrimaryMonitorRect.bottom env.NtUserGetPrimaryMonitorRect.top
          = sub32 env0.get_host_primary_monitor_rect.bottom
              env0.get_host_primary_monitor_rect.top) ∧
    (fits32 (env.NtUserGetPrimaryMonitorRect.right - env.NtUserGetPrimaryMonitorRect.left) →
      fits32 (env.NtUserGetPrimaryMonitorRect.bottom - env.NtUserGetPrimaryMonitorRect.top) →
      fits32 (env0.get_host_primary_monitor_rect.right
        - env0.get_host_primary_monitor_rect.left) →
      fits32 (env0.get_host_primary_monitor_rect.bottom
        - env0.get_host_primary_monitor_rect.top) →
      ((is_desktop_fullscreen env
            (run_ops K ops (X11DRV_init_desktop env0 win width height g0).globals)).ret = true ↔
        env.NtUserGetPrimaryMonitorRect.right - env.NtUserGetPrimaryMonitorRect.left
            = env0.get_host_primary_monitor_rect.right
                - env0.get_host_primary_monitor_rect.left ∧
          env.NtUserGetPrimaryMonitorRect.bottom - env.NtUserGetPrimaryMonitorRect.top
            = env0.get_host_primary_monitor_rect.bottom
                - env0.get_host_primary_monitor_rect.top)) ∧
    (is_desktop_fullscreen env
        (run_ops K ops (X11DRV_init_desktop env0 win width height g0).globals)).globals
      = run_ops K ops (X11DRV_init_desktop env0 win width height g0).globals ∧
    (is_desktop_fullscreen env
        (run_ops K ops (X11DRV_init_desktop env0 win width height g0).globals)).calls = [] := by
  have hH : (run_ops K ops
      (X11DRV_init_desktop env0 win width height g0).globals).host_primary_rect
        = env0.get_host_primary_monitor_rect := by
    rw [run_ops_host_primary_rect]; rfl
  have hiff := is_desktop_fullscreen_ret_iff env
    (run_ops K ops (X11DRV_init_desktop env0 win width height g0).globals)
  rw [hH] at hiff
  refine ⟨hH, hiff, ?_, rfl, rfl⟩
  intro h1 h2 h3 h4
  rw [sub32_of_fits32 h1, sub32_of_fits32 h2, sub32_of_fits32 h3, sub32_of_fits32 h4] at hiff
  exact hiff

/-- Witness for C6: host rectangle `(0,0,1920,1080)` captured at
initialisation; after a resize that sees a `1280x720` primary rectangle and a
query, the host rectangle is unchanged and a query with primary rectangle
`(100,0,2020,1080)` returns true. -/
theorem init_desktop_host_rect_snapshot_witness :
    (fits32 (2020 - 100) ∧ fits32 (1080 - 0) ∧ fits32 (1920 - 0)) ∧
    (run_ops x11_headers
        [Op.resize_desktop (sample_env ⟨0, 0, 1280, 720⟩ ⟨0, 0, 1280, 720⟩ ⟨0, 0, 800, 600⟩),
         Op.desktop_fullscreen (sample_env ⟨0, 0, 1280, 720⟩ ⟨0, 0, 1280, 720⟩ ⟨0, 0, 800, 600⟩)]
        (X11DRV_init_desktop
          (sample_env ⟨0, 0, 1920, 1080⟩ ⟨0, 0, 1920, 1080⟩ ⟨0, 0, 1920, 1080⟩)
          42 1920 1080 (startup 1 true ⟨3, 1⟩)).globals).host_primary_rect
      = ⟨0, 0, 1920, 1080⟩ ∧
    (is_desktop_fullscreen
        (sample_env ⟨100, 0, 2020, 1080⟩ ⟨0, 0, 1280, 720⟩ ⟨0, 0, 800, 600⟩)
        (run_ops x11_headers
          [Op.resize_desktop (sample_env ⟨0, 0, 1280, 720⟩ ⟨0, 0, 1280, 720⟩ ⟨0, 0, 800, 600⟩),
           Op.desktop_fullscreen
            (sample_env ⟨0, 0, 1280, 720⟩ ⟨0, 0, 1280, 720⟩ ⟨0, 0, 800, 600⟩)]
          (X11DRV_init_desktop
            (sample_env ⟨0, 0, 1920, 1080⟩ ⟨0, 0, 1920, 1080⟩ ⟨0, 0, 1920, 1080⟩)
            42 1920 1080 (startup 1 true ⟨3, 1⟩)).globals)).ret = true :=
  ⟨⟨by decide, by decide, by decide⟩,
   (init_desktop_host_rect_snapshot x11_headers
      (sample_env ⟨0, 0, 1920, 1080⟩ ⟨0, 0, 1920, 1080⟩ ⟨0, 0, 1920, 1080⟩) 42 1920 1080
      (startup 1 true ⟨3, 1⟩)
      [Op.resize_desktop (sample_env ⟨0, 0, 1280, 720⟩ ⟨0, 0, 1280, 720⟩ ⟨0, 0, 800, 600⟩),
       Op.desktop_fullscreen (sample_env ⟨0, 0, 1280, 720⟩ ⟨0, 0, 1280, 720⟩ ⟨0, 0, 800, 600⟩)]
      (sample_env ⟨100, 0, 2020, 1080⟩ ⟨0, 0, 1280, 720⟩ ⟨0, 0, 800, 600⟩)).1,
   ((init_desktop_host_rect_snapshot x11_headers
      (sample_env ⟨0, 0, 1920, 1080⟩ ⟨0, 0, 1920, 1080⟩ ⟨0, 0, 1920, 1080⟩) 42 1920 1080
      (startup 1 true ⟨3, 1⟩)
      [Op.resize_desktop (sample_env ⟨0, 0, 1280, 720⟩ ⟨0, 0, 1280, 720⟩ ⟨0, 0, 800, 600⟩),
       Op.desktop_fullscreen (sample_env ⟨0, 0, 1280, 720⟩ ⟨0, 0, 1280, 720⟩ ⟨0, 0, 800, 600⟩)]
      (sample_env ⟨100, 0, 2020, 1080⟩ ⟨0, 0, 1280, 720⟩ ⟨0, 0, 800, 600⟩)).2.2.1
        (by decide) (by decide) (by decide) (by decide)).2 ⟨by decide, by decide⟩⟩

/-- C7: calling `X11DRV_resize_desktop` twice in succession with the same
collaborator answers: the second call sends no broadcast; it sends the same
hint messages as the first (two when the guard passes, none when it does
not); it issues the same move/resize request; and the globals after the
second call equal the globals after the first. -/
theorem resize_desktop_twice (K : Headers) (env : Env) (g : Globals) :
    broadcasts (X11DRV_resize_desktop K env (X11DRV_resize_desktop K env g).globals).calls
      = [] ∧
    hint_messages (X11DRV_resize_desktop K env (X11DRV_resize_desktop K env g).globals).calls
      = hint_messages (X11DRV_resize_desktop K env g).calls ∧
    (hint_messages
        (X11DRV_resize_desktop K env (X11DRV_resize_desktop K env g).globals).calls).length
      = (if guard_passes env g = true then 2 else 0) ∧
    move_resize_requests
        (X11DRV_resize_desktop K env (X11DRV_resize_desktop K env g).globals).calls
      = move_resize_requests (X11DRV_resize_desktop K env g).calls ∧
    (X11DRV_resize_desktop K env (X11DRV_resize_desktop K env g).globals).globals
      = (X11DRV_resize_desktop K env g).globals := by
  have hh : hint_messages
      (X11DRV_resize_desktop K env (X11DRV_resize_desktop K env g).globals).calls
      = hint_messages (X11DRV_resize_desktop K env g).calls := by
    rw [resize_desktop_hint_messages, resize_desktop_hint_messages, resize_desktop_globals,
      update_desktop_fullscreen_calls_old_virtual_rect]
  refine ⟨?_, hh, ?_, ?_, ?_⟩
  · rw [resize_desktop_broadcasts, resize_desktop_globals]
    simp
  · rw [hh, resize_desktop_hint_messages]
    cases hg : guard_passes env g with
    | false =>
      rw [update_desktop_fullscreen_calls_of_not_guard K env _ _ g hg]
      simp
    | true =>
      unfold guard_passes at hg
      cases hd : env.thread_display with
      | none => simp [hd] at hg
      | some d =>
        simp [hd] at hg
        rw [update_desktop_fullscreen_calls_of_guard K env _ _ g d hd hg]
        simp
  · rw [resize_desktop_move_resize_requests, resize_desktop_move_resize_requests]
  · rw [resize_desktop_globals, resize_desktop_globals]

/-- C8: when no display connection is active (`thread_display()` is null) or
virtual-desktop mode is not active (`root_window` is the default root
window), `X11DRV_resize_desktop` sends no hint message, and issues the same
move/resize request, the same broadcasts and the same update of
`old_virtual_rect` as a call in which the guard passes with the same virtual
rectangle, desktop window and previous virtual rectangle. -/
theorem resize_desktop_guard_fails (K : Headers) (env : Env) (g : Globals)
    (env2 : Env) (g2 : Globals)
    (hfail : env.thread_display = none ∨
      g.root_window = DefaultRootWindow g.gdi_display)
    (hpass : guard_passes env2 g2 = true)
    (hvirt : env2.NtUserGetVirtualScreenRect = env.NtUserGetVirtualScreenRect)
    (hwnd : env2.NtUserGetDesktopWindow = env.NtUserGetDesktopWindow)
    (hold : g2.old_virtual_rect = g.old_virtual_rect) :
    hint_messages (X11DRV_resize_desktop K env g).calls = [] ∧
    (hint_messages (X11DRV_resize_desktop K env2 g2).calls).length = 2 ∧
    move_resize_requests (X11DRV_resize_desktop K env g).calls
      = move_resize_requests (X11DRV_resize_desktop K env2 g2).calls ∧
    (move_resize_requests (X11DRV_resize_desktop K env g).calls).length = 1 ∧
    broadcasts (X11DRV_resize_desktop K env g).calls
      = broadcasts (X11DRV_resize_desktop K env2 g2).calls ∧
    (X11DRV_resize_desktop K env g).globals.old_virtual_rect
      = (X11DRV_resize_desktop K env2 g2).globals.old_virtual_rect ∧
    (X11DRV_resize_desktop K env g).globals.old_virtual_rect
      = env.NtUserGetVirtualScreenRect := by
  have hg : guard_passes env g = false := (guard_passes_eq_false_iff env g).2 hfail
  refine ⟨?_, ?_, ?_, ?_, ?_, ?_, ?_⟩
  · rw [resize_desktop_hint_messages,
      update_desktop_fullscreen_calls_of_not_guard K env _ _ g hg]
  · rw [resize_desktop_hint_messages]
    unfold guard_passes at hpass
    cases hd : env2.thread_display with
    | none => simp [hd] at hpass
    | some d =>
      simp [hd] at hpass
      rw [update_desktop_fullscreen_calls_of_guard K env2 _ _ g2 d hd hpass]
      simp
  · rw [resize_desktop_move_resize_requests, resize_desktop_move_resize_requests,
      hvirt, hwnd]
  · rw [resize_desktop_move_resize_requests]
    simp
  · rw [resize_desktop_broadcasts, resize_desktop_broadcasts, hvirt, hold]
  · rw [resize_desktop_globals, resize_desktop_globals, hvirt]
  · rw [resize_desktop_globals]

/-- Witness for C8: the same configuration once without a display connection
and once with the guard passing; previous origin `(0,0)`, new origin
`(-1920,0)`. -/
theorem resize_desktop_guard_fails_witness :
    (({ sample_env ⟨0, 0, 1920, 1080⟩ ⟨-1920, 0, 1920, 1080⟩ ⟨0, 0, 1920, 1080⟩ with
          thread_display := none } : Env).thread_display = none ∨
        (sample_globals ⟨0, 0, 1920, 1080⟩ ⟨0, 0, 1920, 1080⟩).root_window =
          DefaultRootWindow (sample_globals ⟨0, 0, 1920, 1080⟩ ⟨0, 0, 1920, 1080⟩).gdi_display) ∧
    guard_passes (sample_env ⟨0, 0, 1920, 1080⟩ ⟨-1920, 0, 1920, 1080⟩ ⟨0, 0, 1920, 1080⟩)
      (sample_globals ⟨0, 0, 1920, 1080⟩ ⟨0, 0, 1920, 1080⟩) = true ∧
    hint_messages (X11DRV_resize_desktop x11_headers
      { sample_env ⟨0, 0, 1920, 1080⟩ ⟨-1920, 0, 1920, 1080⟩ ⟨0, 0, 1920, 1080⟩ with
          thread_display := none }
      (sample_globals ⟨0, 0, 1920, 1080⟩ ⟨0, 0, 1920, 1080⟩)).calls = [] ∧
    broadcasts (X11DRV_resize_desktop x11_headers
      { sample_env ⟨0, 0, 1920, 1080⟩ ⟨-1920, 0, 1920, 1080⟩ ⟨0, 0, 1920, 1080⟩ with
          thread_display := none }
      (sample_globals ⟨0, 0, 1920, 1080⟩ ⟨0, 0, 1920, 1080⟩)).calls =
    broadcasts (X11DRV_resize_desktop x11_headers
      (sample_env ⟨0, 0, 1920, 1080⟩ ⟨-1920, 0, 1920, 1080⟩ ⟨0, 0, 1920, 1080⟩)
      (sample_globals ⟨0, 0, 1920, 1080⟩ ⟨0, 0, 1920, 1080⟩)).calls :=
  ⟨Or.inl rfl, by decide,
   (resize_desktop_guard_fails x11_headers
      { sample_env ⟨0, 0, 1920, 1080⟩ ⟨-1920, 0, 1920, 1080⟩ ⟨0, 0, 1920, 1080⟩ with
          thread_display := none }
      (sample_globals ⟨0, 0, 1920, 1080⟩ ⟨0, 0, 1920, 1080⟩)
      (sample_env ⟨0, 0, 1920, 1080⟩ ⟨-1920, 0, 1920, 1080⟩ ⟨0, 0, 1920, 1080⟩)
      (sample_globals ⟨0, 0, 1920, 1080⟩ ⟨0, 0, 1920, 1080⟩)
      (Or.inl rfl) (by decide) rfl rfl rfl).1,
   (resize_desktop_guard_fails x11_headers
      { sample_env ⟨0, 0, 1920, 1080⟩ ⟨-1920, 0, 1920, 1080⟩ ⟨0, 0, 1920, 1080⟩ with
          thread_display := none }
      (sample_globals ⟨0, 0, 1920, 1080⟩ ⟨0, 0, 1920, 1080⟩)
      (sample_env ⟨0, 0, 1920, 1080⟩ ⟨-1920, 0, 1920, 1080⟩ ⟨0, 0, 1920, 1080⟩)
      (sample_globals ⟨0, 0, 1920, 1080⟩ ⟨0, 0, 1920, 1080⟩)
      (Or.inl rfl) (by decide) rfl rfl rfl).2.2.2.2.1⟩

/-- C9: after every call of `X11DRV_resize_desktop`, `old_virtual_rect` (all
four fields) equals the virtual rectangle read during that call, whatever the
globals before, whether or not the guard passed, whether or not a broadcast
was sent, and whatever `send_message_timeout` returned; at driver start
`old_virtual_rect` is the zero rectangle. -/
theorem resize_desktop_records_virtual_rect (K : Headers) (env : Env) (g : Globals)
    (outcome : Int) (root_window : Window) (managed_mode : Bool) (gdi_display : Display) :
    (X11DRV_resize_desktop K env g).globals.old_virtual_rect
      = env.NtUserGetVirtualScreenRect ∧
    (X11DRV_resize_desktop K { env with send_message_timeout := outcome } g).globals
      = (X11DRV_resize_desktop K env g).globals ∧
    (X11DRV_resize_desktop K { env with send_message_timeout := outcome } g).calls
      = (X11DRV_resize_desktop K env g).calls ∧
    (startup root_window managed_mode gdi_display).old_virtual_rect = ⟨0, 0, 0, 0⟩ ∧
    (X11DRV_resize_desktop K env
        (startup root_window managed_mode gdi_display)).globals.old_virtual_rect
      = env.NtUserGetVirtualScreenRect := by
  refine ⟨?_, ?_, rfl, rfl, ?_⟩
  · rw [resize_desktop_globals]
  · rw [resize_desktop_globals, resize_desktop_globals]
  · rw [resize_desktop_globals]

/-- C10: the two fullscreen decisions agree when the primary origin is zero:
for every host rectangle and every primary rectangle with `left = 0` and
`top = 0`, when the guard passes, `X11DRV_resize_desktop` emits ADD/ADD iff
`is_desktop_fullscreen` returns true on the same state, and REMOVE/REMOVE iff
it returns false.  The origin hypothesis is needed: with host rectangle
`(0,0,1920,1080)` and primary rectangle `(100,0,2020,1080)`,
`is_desktop_fullscreen` returns true while `X11DRV_resize_desktop` emits
REMOVE/REMOVE. -/
theorem fullscreen_decisions_agree_at_zero_origin :
    (∀ (K : Headers) (env : Env) (g : Globals) (display : Display),
      env.thread_display = some display →
      is_virtual_desktop g = true →
      env.NtUserGetPrimaryMonitorRect.left = 0 →
      env.NtUserGetPrimaryMonitorRect.top = 0 →
      (hint_actions (X11DRV_resize_desktop K env g).calls
            = [_NET_WM_STATE_ADD, _NET_WM_STATE_ADD] ↔
          (is_desktop_fullscreen env g).ret = true) ∧
        (hint_actions (X11DRV_resize_desktop K env g).calls
            = [_NET_WM_STATE_REMOVE, _NET_WM_STATE_REMOVE] ↔
          (is_desktop_fullscreen env g).ret = false)) ∧
    (guard_passes (sample_env ⟨100, 0, 2020, 1080⟩ ⟨0, 0, 1920, 1080⟩ ⟨0, 0, 1920, 1080⟩)
        (sample_globals ⟨0, 0, 1920, 1080⟩ ⟨0, 0, 0, 0⟩) = true ∧
      (is_desktop_fullscreen
        (sample_env ⟨100, 0, 2020, 1080⟩ ⟨0, 0, 1920, 1080⟩ ⟨0, 0, 1920, 1080⟩)
        (sample_globals ⟨0, 0, 1920, 1080⟩ ⟨0, 0, 0, 0⟩)).ret = true ∧
      hint_actions (X11DRV_resize_desktop x11_headers
        (sample_env ⟨100, 0, 2020, 1080⟩ ⟨0, 0, 1920, 1080⟩ ⟨0, 0, 1920, 1080⟩)
        (sample_globals ⟨0, 0, 1920, 1080⟩ ⟨0, 0, 0, 0⟩)).calls
        = [_NET_WM_STATE_REMOVE, _NET_WM_STATE_REMOVE]) := by
  refine ⟨?_, by decide, by decide, by decide⟩
  intro K env g display hd hv hl ht
  have hact := resize_desktop_hint_actions_of_guard K env g display hd hv
  have hiff := fullscreen_action_iff_is_desktop_fullscreen env g hl ht
  rw [hact]
  rcases fullscreen_action_add_or_remove
      (uint32 env.NtUserGetPrimaryMonitorRect.right)
      (uint32 env.NtUserGetPrimaryMonitorRect.bottom) g with h | h
  · have hret : (is_desktop_fullscreen env g).ret = true := hiff.1 h
    rw [h, hret]
    simp [_NET_WM_STATE_ADD, _NET_WM_STATE_REMOVE]
  · have hret : (is_desktop_fullscreen env g).ret = false := by
      cases hr : (is_desktop_fullscreen env g).ret with
      | false => rfl
      | true =>
        have := hiff.2 hr
        rw [h] at this
        exact absurd this (by decide)
    rw [h, hret]
    simp [_NET_WM_STATE_ADD, _NET_WM_STATE_REMOVE]

/-- Witness for C10: host rectangle `(0,0,1920,1080)`, primary rectangle
`(0,0,1920,1080)` with zero origin and the guard passing:
`is_desktop_fullscreen` returns true and the hints are ADD/ADD. -/
theorem fullscreen_decisions_agree_at_zero_origin_witness :
    ((sample_env ⟨0, 0, 1920, 1080⟩ ⟨0, 0, 1920, 1080⟩ ⟨0, 0, 1920, 1080⟩).thread_display
        = some ⟨7, 1⟩ ∧
      is_virtual_desktop (sample_globals ⟨0, 0, 1920, 1080⟩ ⟨0, 0, 0, 0⟩) = true ∧
      (sample_env ⟨0, 0, 1920, 1080⟩ ⟨0, 0, 1920, 1080⟩
        ⟨0, 0, 1920, 1080⟩).NtUserGetPrimaryMonitorRect.left = 0 ∧
      (sample_env ⟨0, 0, 1920, 1080⟩ ⟨0, 0, 1920, 1080⟩
        ⟨0, 0, 1920, 1080⟩).NtUserGetPrimaryMonitorRect.top = 0 ∧
      (is_desktop_fullscreen
        (sample_env ⟨0, 0, 1920, 1080⟩ ⟨0, 0, 1920, 1080⟩ ⟨0, 0, 1920, 1080⟩)
        (sample_globals ⟨0, 0, 1920, 1080⟩ ⟨0, 0, 0, 0⟩)).ret = true) ∧
    hint_actions (X11DRV_resize_desktop x11_headers
        (sample_env ⟨0, 0, 1920, 1080⟩ ⟨0, 0, 1920, 1080⟩ ⟨0, 0, 1920, 1080⟩)
        (sample_globals ⟨0, 0, 1920, 1080⟩ ⟨0, 0, 0, 0⟩)).calls
      = [_NET_WM_STATE_ADD, _NET_WM_STATE_ADD] :=
  ⟨⟨rfl, by decide, rfl, rfl, by decide⟩,
   ((fullscreen_decisions_agree_at_zero_origin.1 x11_headers
      (sample_env ⟨0, 0, 1920, 1080⟩ ⟨0, 0, 1920, 1080⟩ ⟨0, 0, 1920, 1080⟩)
      (sample_globals ⟨0, 0, 1920, 1080⟩ ⟨0, 0, 0, 0⟩) ⟨7, 1⟩ rfl (by decide) rfl rfl).1).2
      (by decide)⟩

end X11DRV
